import Mathlib

/-!
Verification development for the aumai-smartgram repository.

The Python source (src/aumai_smartgram/models.py and core.py) is embedded
shallowly: pydantic models become structures, `dict` (insertion-ordered in
Python 3.7+) becomes an association list with replace-in-place insertion,
`float` arithmetic is idealised as ℚ, and Python `round` / `format` rounding
is modelled as round-half-to-even.
-/

namespace AumaiSmartgram

/-- Python `round(x, ndigits)` and float formatting round half to even
(banker's rounding).  `roundHalfEven q` is the integer nearest to `q`,
halves going to the even neighbour. -/
def roundHalfEven (q : ℚ) : ℤ :=
  if q - (⌊q⌋ : ℚ) < 1/2 then ⌊q⌋
  else if 1/2 < q - (⌊q⌋ : ℚ) then ⌊q⌋ + 1
  else if ⌊q⌋ % 2 = 0 then ⌊q⌋ else ⌊q⌋ + 1

/-- Python `round(x, 1)`: round to one decimal place, half to even. -/
def round1 (q : ℚ) : ℚ := (roundHalfEven (10 * q) : ℚ) / 10

/-! ### Python `dict` (insertion-ordered, replace keeps position) -/

/-- Lookup `d.get(k)` on a Python dict, walking entries in insertion order. -/
def dictGet {α : Type} (k : String) : List (String × α) → Option α
  | [] => none
  | (k0, v) :: rest => if k0 = k then some v else dictGet k rest

/-- Assignment `d[k] = v` on a Python dict: an existing key keeps its position,
a new key is appended at the end. -/
def dictInsert {α : Type} (k : String) (v : α) : List (String × α) → List (String × α)
  | [] => [(k, v)]
  | (k0, v0) :: rest => if k0 = k then (k, v) :: rest else (k0, v0) :: dictInsert k v rest

/-- The view `d.values()` in insertion order. -/
def dictValues {α : Type} (d : List (String × α)) : List α := d.map Prod.snd

/-! ### Data model (models.py) -/

/-- The `ServiceCategory` enum from models.py. -/
inductive ServiceCategory where
  | infrastructure
  | welfare
  | agriculture
  | health
  | education
  | sanitation
  | water
  | roads
deriving DecidableEq

/-- The `GramPanchayat` pydantic model: population, households, area are
validated strictly positive at construction. -/
structure GramPanchayat where
  panchayat_id : String
  name : String
  block : String
  district : String
  state : String
  population : ℤ
  households : ℤ
  area_sq_km : ℚ
deriving DecidableEq

/-- The `ServiceRequest` pydantic model (status defaults to "pending",
priority validated to 1..5, default 3). -/
structure ServiceRequest where
  request_id : String
  panchayat_id : String
  category : ServiceCategory
  description : String
  submitted_date : String
  status : String
  priority : ℤ
  resolved_date : Option String
deriving DecidableEq

/-- The `BudgetAllocation` pydantic model (amounts validated nonnegative). -/
structure BudgetAllocation where
  panchayat_id : String
  financial_year : String
  scheme_name : String
  allocated_amount : ℚ
  utilized_amount : ℚ
deriving DecidableEq

/-- Property `BudgetAllocation.utilization_pct`: 0 when allocated is 0, else
`round(utilized / allocated * 100, 1)`. -/
def BudgetAllocation.utilization_pct (a : BudgetAllocation) : ℚ :=
  if a.allocated_amount = 0 then 0
  else round1 (a.utilized_amount / a.allocated_amount * 100)

/-- The `SchemeInfo` pydantic model. -/
structure SchemeInfo where
  name : String
  ministry : String
  description : String
  allocation_type : String
  eligible_panchayats : String
deriving DecidableEq

/-! ### PanchayatRegistry (core.py) -/

/-- The `PanchayatRegistry` class: wraps `self._panchayats : dict[str, GramPanchayat]`. -/
structure PanchayatRegistry where
  panchayats : List (String × GramPanchayat)

/-- Method `register`: `self._panchayats[panchayat.panchayat_id] = panchayat`. -/
def PanchayatRegistry.register (reg : PanchayatRegistry) (panchayat : GramPanchayat) :
    PanchayatRegistry :=
  ⟨dictInsert panchayat.panchayat_id panchayat reg.panchayats⟩

/-- Method `get`: `self._panchayats.get(panchayat_id)`. -/
def PanchayatRegistry.get (reg : PanchayatRegistry) (panchayat_id : String) :
    Option GramPanchayat :=
  dictGet panchayat_id reg.panchayats

/-- Method `population_density`: 0 when the id is absent or the area is 0,
else `round(p.population / p.area_sq_km, 1)`. -/
def PanchayatRegistry.population_density (reg : PanchayatRegistry) (panchayat_id : String) : ℚ :=
  match dictGet panchayat_id reg.panchayats with
  | none => 0
  | some p => if p.area_sq_km = 0 then 0 else round1 ((p.population : ℚ) / p.area_sq_km)

/-- Example unit used by concrete witnesses. -/
def exPanchayat : GramPanchayat :=
  ⟨"GP001", "Rampur", "Block A", "Sitapur", "Uttar Pradesh", 2000, 400, 10⟩

/-- A registry holding just `exPanchayat`. -/
def exRegistry : PanchayatRegistry := PanchayatRegistry.register ⟨[]⟩ exPanchayat

/-- A second record with the identifier of `exPanchayat` but new field values. -/
def exPanchayat' : GramPanchayat :=
  ⟨"GP001", "Rampur New", "Block B", "Sitapur", "Uttar Pradesh", 2500, 500, 12⟩

/-! ### ServiceTracker (core.py) -/

/-- The `ServiceTracker` class: wraps `self._requests : dict[str, ServiceRequest]`. -/
structure ServiceTracker where
  requests : List (String × ServiceRequest)

/-- Method `create`: `self._requests[request.request_id] = request`. -/
def ServiceTracker.create (t : ServiceTracker) (request : ServiceRequest) : ServiceTracker :=
  ⟨dictInsert request.request_id request t.requests⟩

/-- Method `update_status`: returns False and leaves the dict alone for an unknown
id; otherwise sets `req.status = status` and, only when `resolved_date` is
truthy (Python: `if resolved_date:` — both None and "" are falsy), sets
`req.resolved_date`.  The record is mutated in place, so its dict position
is unchanged. -/
def ServiceTracker.update_status (t : ServiceTracker) (request_id : String) (status : String)
    (resolved_date : Option String) : Bool × ServiceTracker :=
  match dictGet request_id t.requests with
  | none => (false, t)
  | some req =>
    let req1 := { req with status := status }
    let req2 := match resolved_date with
      | none => req1
      | some d => if d = "" then req1 else { req1 with resolved_date := some d }
    (true, ⟨dictInsert request_id req2 t.requests⟩)

/-- The comparison key of `sorted(results, key=lambda r: r.priority)`. -/
def prioLE (a b : ServiceRequest) : Prop := a.priority ≤ b.priority

instance : DecidableRel prioLE := fun a b => inferInstanceAs (Decidable (a.priority ≤ b.priority))

instance : IsTotal ServiceRequest prioLE := ⟨fun a b => Int.le_total a.priority b.priority⟩

instance : IsTrans ServiceRequest prioLE := ⟨fun _ _ _ h1 h2 => le_trans h1 h2⟩

/-- Method `get_pending`: keep requests whose status is exactly "pending",
restrict by unit when the filter argument is truthy (Python: `if
panchayat_id:` — None and "" are falsy), then sort stably by priority.
Python `sorted` is a stable sort; `List.insertionSort` with `≤` on the key
computes exactly that stable sort. -/
def ServiceTracker.get_pending (t : ServiceTracker) (panchayat_id : Option String) :
    List ServiceRequest :=
  let results := (dictValues t.requests).filter (fun r => decide (r.status = "pending"))
  let results2 := match panchayat_id with
    | none => results
    | some pid => if pid = "" then results
                  else results.filter (fun r => decide (r.panchayat_id = pid))
  List.insertionSort prioLE results2

/-- Method `resolution_rate`: resolved ÷ total × 100 rounded to 1 decimal,
0 when the unit has no requests. -/
def ServiceTracker.resolution_rate (t : ServiceTracker) (panchayat_id : String) : ℚ :=
  let total := (dictValues t.requests).countP (fun r => decide (r.panchayat_id = panchayat_id))
  let resolved := (dictValues t.requests).countP
      (fun r => decide (r.panchayat_id = panchayat_id ∧ r.status = "resolved"))
  if 0 < total then round1 ((resolved : ℚ) / (total : ℚ) * 100) else 0

/-- The spec-side filter: the unit restriction applies exactly when the
supplied filter is non-empty (an empty string behaves as no filter). -/
def matchesFilter (filt : Option String) (r : ServiceRequest) : Prop :=
  match filt with
  | none => True
  | some s => s = "" ∨ r.panchayat_id = s

instance (filt : Option String) (r : ServiceRequest) : Decidable (matchesFilter filt r) := by
  unfold matchesFilter
  cases filt <;> infer_instance

/-- The requests `get_pending` should select, in insertion order: status
exactly "pending" and (amended) passing the non-empty unit filter. -/
def pendingBase (t : ServiceTracker) (filt : Option String) : List ServiceRequest :=
  (dictValues t.requests).filter (fun r => decide (r.status = "pending" ∧ matchesFilter filt r))

/-- Example request used by concrete witnesses: unit "GP001", pending. -/
def exRequest : ServiceRequest :=
  ⟨"SR001", "GP001", ServiceCategory.water, "Hand pump repair", "2024-01-05", "pending", 2, none⟩

/-- A tracker holding just `exRequest`. -/
def exTracker : ServiceTracker := ServiceTracker.create ⟨[]⟩ exRequest

/-- Two resolved requests for unit "GP001", for the C7 witness. -/
def exRequestR1 : ServiceRequest :=
  ⟨"SR010", "GP001", ServiceCategory.roads, "Road repair", "2024-01-01", "resolved", 3,
    some "2024-02-01"⟩

def exRequestR2 : ServiceRequest :=
  ⟨"SR011", "GP001", ServiceCategory.health, "Clinic staffing", "2024-01-02", "resolved", 1,
    some "2024-02-02"⟩

def exTrackerR : ServiceTracker :=
  (ServiceTracker.create (ServiceTracker.create ⟨[]⟩ exRequestR1) exRequestR2)

/-! ### BudgetAnalyzer (core.py) -/

/-- The `BudgetAnalyzer` class: wraps `self._allocations : list[BudgetAllocation]`. -/
structure BudgetAnalyzer where
  allocations : List BudgetAllocation

/-- Method `add`: `self._allocations.append(allocation)`. -/
def BudgetAnalyzer.add (b : BudgetAnalyzer) (allocation : BudgetAllocation) : BudgetAnalyzer :=
  ⟨b.allocations ++ [allocation]⟩

/-- Method `under_utilized`: records matching unit and year with utilization
percentage strictly below the threshold, in insertion order.  The Python
default threshold is 50.0; callers of the embedding pass it explicitly. -/
def BudgetAnalyzer.under_utilized (b : BudgetAnalyzer) (panchayat_id year : String)
    (threshold : ℚ) : List BudgetAllocation :=
  b.allocations.filter (fun a => decide (a.panchayat_id = panchayat_id
    ∧ a.financial_year = year ∧ a.utilization_pct < threshold))

/-- Digit grouping of Python format `,`, on the reversed digit list:
walking from the least significant digit, a comma is emitted before every
digit whose position is a positive multiple of 3. -/
def commaEvery3 : Nat → List Char → List Char
  | _, [] => []
  | i, c :: rest =>
      (if 0 < i ∧ i % 3 = 0 then [',', c] else [c]) ++ commaEvery3 (i + 1) rest

/-- Python `f"{x:,}"` on an integer: sign, then digits grouped in threes. -/
def intComma (m : ℤ) : String :=
  (if m < 0 then "-" else "")
    ++ String.mk (commaEvery3 0 m.natAbs.repr.toList.reverse).reverse

/-- Python `f"{x:,.0f}"` on an idealised float: round half to even to an
integer, then comma-group the digits. -/
def fmtComma0 (q : ℚ) : String := intComma (roundHalfEven q)

/-- Python `f"{x:.0f}"` on an idealised float. -/
def fmtF0 (q : ℚ) : String := toString (roundHalfEven q)

/-- The f-string built for each under-utilized record in
`recommend_reallocation`. -/
def recLine (a : BudgetAllocation) : String :=
  "Reallocate Rs " ++ fmtComma0 (a.allocated_amount - a.utilized_amount) ++ " from "
    ++ a.scheme_name ++ " (only " ++ fmtF0 a.utilization_pct
    ++ "% utilized) to higher-need areas"

/-- Method `recommend_reallocation`: one recommendation line per under-utilized
record (default threshold 50.0), in the same order. -/
def BudgetAnalyzer.recommend_reallocation (b : BudgetAnalyzer) (panchayat_id year : String) :
    List String :=
  (b.under_utilized panchayat_id year 50).map recLine

/-- A record with zero allocation and nonzero utilization. -/
def exAllocZ : BudgetAllocation := ⟨"GP001", "2023-24", "Test Scheme", 0, 5000⟩

/-- The §8 scenario: four allocations for one unit and year. -/
def scenarioBudget : BudgetAnalyzer :=
  ((((BudgetAnalyzer.add ⟨[]⟩
    ⟨"GP001", "2023-24", "MGNREGA", 500000, 320000⟩).add
    ⟨"GP001", "2023-24", "Jal Jeevan Mission", 800000, 760000⟩).add
    ⟨"GP001", "2023-24", "PMAY-Gramin", 300000, 90000⟩).add
    ⟨"GP001", "2023-24", "Swachh Bharat Mission (Gramin)", 150000, 148000⟩)

/-- An analyzer whose only matching record is fully utilized, for the C3
witness of the zero-recommendations branch. -/
def exBudgetHigh : BudgetAnalyzer :=
  BudgetAnalyzer.add ⟨[]⟩ ⟨"GP001", "2023-24", "MGNREGA", 500000, 500000⟩

/-! ### SchemeMapper (core.py) -/

/-- The module-level `_SCHEMES` catalog: 15 hard-coded records. -/
def SCHEMES : List SchemeInfo :=
  [⟨"MGNREGA", "Ministry of Rural Development",
    "100 days guaranteed wage employment per rural household per year.",
    "demand-driven", "all_rural"⟩,
   ⟨"PMAY-Gramin", "Ministry of Rural Development",
    "Pucca house with basic amenities. Rs 1.20 lakh (plains), Rs 1.30 lakh (hilly).",
    "unit-based", "houseless_kutcha"⟩,
   ⟨"Swachh Bharat Mission (Gramin)", "Ministry of Jal Shakti",
    "ODF villages. Individual household toilets and community sanitary complexes.",
    "unit-based", "all_rural"⟩,
   ⟨"PMGSY", "Ministry of Rural Development",
    "All-weather road connectivity to unconnected habitations (500+ population, 250+ in hilly).",
    "project-based", "unconnected_habitations"⟩,
   ⟨"National Health Mission", "Ministry of Health",
    "Health Sub-Centres, PHCs. Free medicines, diagnostics. ASHA workers.",
    "population-based", "all"⟩,
   ⟨"Samagra Shiksha", "Ministry of Education",
    "Holistic education from pre-school to Class XII. School infrastructure and teacher training.",
    "population-based", "all"⟩,
   ⟨"National Rural Livelihood Mission", "Ministry of Rural Development",
    "SHG formation, skill development, micro-credit. Targets poorest of poor.",
    "demand-driven", "all_rural"⟩,
   ⟨"DDU-GKY", "Ministry of Rural Development",
    "Skill development and placement for rural youth aged 15-35.",
    "demand-driven", "all_rural"⟩,
   ⟨"Jal Jeevan Mission", "Ministry of Jal Shakti",
    "Functional household tap connection (FHTC) to every rural household by 2024.",
    "unit-based", "all_rural"⟩,
   ⟨"PM-KISAN", "Ministry of Agriculture",
    "Rs 6,000/year income support to farmer families in 3 installments.",
    "dbt", "farming_households"⟩,
   ⟨"RKVY-RAFTAAR", "Ministry of Agriculture",
    "Infrastructure for agriculture and allied sectors. Agri-business promotion.",
    "project-based", "all_rural"⟩,
   ⟨"ICDS/Poshan Abhiyaan", "Ministry of Women & Child",
    "Supplementary nutrition, immunization, health checkup for children 0-6 and pregnant women.",
    "anganwadi-based", "all"⟩,
   ⟨"Mid-Day Meal (PM-POSHAN)", "Ministry of Education",
    "Hot cooked lunch for government school children Class I-VIII.",
    "per-child", "all"⟩,
   ⟨"NSAP (National Social Assistance)", "Ministry of Rural Development",
    "Pension for elderly (IGNOAPS), widows (IGNWPS), disabled (IGNDPS).",
    "dbt", "all_bpl"⟩,
   ⟨"AMRUT 2.0", "Ministry of Housing",
    "Water supply, sewerage, drainage for urban areas and census towns.",
    "project-based", "census_towns"⟩]

/-- The if/elif chain deciding one scheme's eligibility for a unit in
`find_eligible`. -/
def eligCond (panchayat : GramPanchayat) (scheme : SchemeInfo) : Bool :=
  if scheme.eligible_panchayats = "all" ∨ scheme.eligible_panchayats = "all_rural"
      ∨ scheme.eligible_panchayats = "all_bpl" then true
  else if scheme.eligible_panchayats = "farming_households" then true
  else if scheme.eligible_panchayats = "census_towns" ∧ 5000 < panchayat.population then true
  else if scheme.eligible_panchayats = "unconnected_habitations"
      ∧ 250 ≤ panchayat.population then true
  else if scheme.eligible_panchayats = "houseless_kutcha" then true
  else false

/-- The `SchemeMapper` class: `self._schemes` holds the catalog contents. -/
structure SchemeMapper where
  schemes : List SchemeInfo

/-- Constructor `__init__`: `self._schemes = list(_SCHEMES)`. -/
def SchemeMapper.init : SchemeMapper := ⟨SCHEMES⟩

/-- Method `find_eligible`: full catalog when no unit is given, else the loop
appending each scheme passing the if/elif chain — i.e. a filter in
catalog order. -/
def SchemeMapper.find_eligible (m : SchemeMapper) (panchayat : Option GramPanchayat) :
    List SchemeInfo :=
  match panchayat with
  | none => m.schemes
  | some p => m.schemes.filter (eligCond p)

/-- Method `all_schemes`: `return list(self._schemes)` — same contents. -/
def SchemeMapper.all_schemes (m : SchemeMapper) : List SchemeInfo := m.schemes

/-- Python substring containment `needle in hay`: the characters of the
needle occur as a contiguous run inside the hay. -/
def strIn (needle hay : String) : Prop := needle.toList <:+: hay.toList

instance (needle hay : String) : Decidable (strIn needle hay) := by
  unfold strIn
  infer_instance

/-- Method `search`: `q = query.lower()`, then the schemes whose lowered
name or lowered description contains `q`, in catalog order. -/
def SchemeMapper.search (m : SchemeMapper) (query : String) : List SchemeInfo :=
  m.schemes.filter (fun s => decide (strIn query.toLower s.name.toLower
    ∨ strIn query.toLower s.description.toLower))

/-- The eligibility rule exactly as the claim states it. -/
def claimEligible (p : GramPanchayat) (s : SchemeInfo) : Prop :=
  s.eligible_panchayats = "all" ∨ s.eligible_panchayats = "all_rural"
  ∨ s.eligible_panchayats = "all_bpl" ∨ s.eligible_panchayats = "farming_households"
  ∨ s.eligible_panchayats = "houseless_kutcha"
  ∨ (s.eligible_panchayats = "census_towns" ∧ 5000 < p.population)
  ∨ (s.eligible_panchayats = "unconnected_habitations" ∧ 250 ≤ p.population)

instance (p : GramPanchayat) (s : SchemeInfo) : Decidable (claimEligible p s) := by
  unfold claimEligible
  infer_instance

/-! ### Reference-level model of the scheme catalog (for C9)

Pydantic records are mutable Python objects and `list(...)` copies only the
list, not the records.  Object identity is modelled by addresses into a
heap of `SchemeInfo` cells. -/

/-- A heap of `SchemeInfo` records; an address is an index. -/
structure SchemeHeap where
  cells : List SchemeInfo

/-- At import time the 15 records of `_SCHEMES` are allocated at
addresses 0..14. -/
def schemeHeap0 : SchemeHeap := ⟨SCHEMES⟩

/-- The module-level `_SCHEMES` list as a list of record references. -/
def catalogAddrs : List Nat := List.range SCHEMES.length

/-- Reference-level `SchemeMapper`: `self._schemes` is a list of record
references. -/
structure SchemeMapperRefs where
  schemes : List Nat

/-- Constructor `__init__`: `self._schemes = list(_SCHEMES)` — a fresh list object
holding the same record references (a shallow copy). -/
def SchemeMapperRefs.init : SchemeMapperRefs := ⟨catalogAddrs⟩

/-- Method `all_schemes`: `return list(self._schemes)` — a fresh list object,
again holding the same record references. -/
def SchemeMapperRefs.all_schemes (m : SchemeMapperRefs) : List Nat := m.schemes

/-- In-place mutation of one record through a reference (pydantic models
are mutable; e.g. `rec.ministry = ...`). -/
def SchemeHeap.writeAt (h : SchemeHeap) (addr : Nat) (s : SchemeInfo) : SchemeHeap :=
  ⟨h.cells.set addr s⟩

/-- The records a reference list denotes on a heap. -/
def deref (h : SchemeHeap) (addrs : List Nat) : List SchemeInfo :=
  addrs.map (fun a => h.cells.getD a ⟨"", "", "", "", "all"⟩)

/-- Default record used when dereferencing an address. -/
def defaultScheme : SchemeInfo := ⟨"", "", "", "", "all"⟩

/-- Reference-level `find_eligible`: the loop reads each record through
its reference and appends the reference itself to a fresh result list. -/
def SchemeMapperRefs.find_eligible (h : SchemeHeap) (m : SchemeMapperRefs)
    (panchayat : Option GramPanchayat) : List Nat :=
  match panchayat with
  | none => m.schemes
  | some p => m.schemes.filter (fun addr => eligCond p (h.cells.getD addr defaultScheme))

/-- Reference-level `search`: the comprehension reads each record through
its reference and collects the matching references in a fresh list. -/
def SchemeMapperRefs.search (h : SchemeHeap) (m : SchemeMapperRefs) (query : String) :
    List Nat :=
  m.schemes.filter (fun addr =>
    decide (strIn query.toLower (h.cells.getD addr defaultScheme).name.toLower
      ∨ strIn query.toLower (h.cells.getD addr defaultScheme).description.toLower))

/-- A heap obtained by mutating the record reached through the first
reference of the list returned by `all_schemes`. -/
def mutatedHeap : SchemeHeap :=
  schemeHeap0.writeAt ((SchemeMapperRefs.init.all_schemes).headD 0)
    ⟨"MGNREGA", "MUTATED", "", "", "all_rural"⟩

/-! ### Theorems -/

theorem le_roundHalfEven {q : ℚ} {n : ℤ} (h : (n : ℚ) ≤ q) : n ≤ roundHalfEven q := by
  unfold roundHalfEven
  have hf : n ≤ ⌊q⌋ := Int.le_floor.mpr h
  split_ifs <;> omega

theorem roundHalfEven_le {q : ℚ} {n : ℤ} (h : q ≤ (n : ℚ)) : roundHalfEven q ≤ n := by
  unfold roundHalfEven
  have hf : ⌊q⌋ ≤ n := by
    have := Int.floor_le_floor h
    simpa using this
  split_ifs with h1 h2 h3
  · exact hf
  · -- the fractional part is strictly above 1/2, so ⌊q⌋ < n
    have hfl : (⌊q⌋ : ℚ) ≤ q := Int.floor_le q
    have : (⌊q⌋ : ℚ) + 1/2 < (n : ℚ) := by linarith
    have : (⌊q⌋ : ℚ) < (n : ℚ) := by linarith
    have : ⌊q⌋ < n := by exact_mod_cast this
    omega
  · exact hf
  · -- the fractional part is exactly 1/2, so ⌊q⌋ < n
    have h12 : q - (⌊q⌋ : ℚ) = 1/2 := le_antisymm (not_lt.mp h2) (not_lt.mp h1)
    have : (⌊q⌋ : ℚ) + 1/2 ≤ (n : ℚ) := by linarith
    have : (⌊q⌋ : ℚ) < (n : ℚ) := by linarith
    have : ⌊q⌋ < n := by exact_mod_cast this
    omega

theorem roundHalfEven_intCast (n : ℤ) : roundHalfEven (n : ℚ) = n := by
  have h1 : n ≤ roundHalfEven (n : ℚ) := le_roundHalfEven le_rfl
  have h2 : roundHalfEven (n : ℚ) ≤ n := roundHalfEven_le le_rfl
  omega

theorem round1_nonneg {q : ℚ} (h : 0 ≤ q) : 0 ≤ round1 q := by
  unfold round1
  have : (0 : ℤ) ≤ roundHalfEven (10 * q) := le_roundHalfEven (by push_cast; linarith)
  positivity

theorem round1_le_100 {q : ℚ} (h : q ≤ 100) : round1 q ≤ 100 := by
  unfold round1
  have h1 : roundHalfEven (10 * q) ≤ (1000 : ℤ) := roundHalfEven_le (by push_cast; linarith)
  have h2 : (roundHalfEven (10 * q) : ℚ) ≤ 1000 := by exact_mod_cast h1
  linarith

theorem round1_intCast (n : ℤ) : round1 (n : ℚ) = n := by
  unfold round1
  have : roundHalfEven (10 * (n : ℚ)) = 10 * n := by
    rw [show (10 * (n : ℚ)) = ((10 * n : ℤ) : ℚ) by push_cast; ring, roundHalfEven_intCast]
  rw [this]
  push_cast
  ring

theorem dictGet_dictInsert_self {α : Type} (k : String) (v : α) (d : List (String × α)) :
    dictGet k (dictInsert k v d) = some v := by
  induction d with
  | nil => simp [dictInsert, dictGet]
  | cons hd tl ih =>
    obtain ⟨k0, v0⟩ := hd
    by_cases h : k0 = k <;> simp [dictInsert, dictGet, h, ih]

theorem dictGet_dictInsert_ne {α : Type} {k k' : String} (v : α) (d : List (String × α))
    (h : k' ≠ k) : dictGet k' (dictInsert k v d) = dictGet k' d := by
  induction d with
  | nil => simp [dictInsert, dictGet, Ne.symm h]
  | cons hd tl ih =>
    obtain ⟨k0, v0⟩ := hd
    by_cases hk : k0 = k
    · subst hk
      simp [dictInsert, dictGet, Ne.symm h]
    · simp [dictInsert, dictGet, hk, ih]

theorem length_dictInsert_of_mem {α : Type} {k : String} (v : α) {d : List (String × α)}
    (h : (dictGet k d).isSome) : (dictInsert k v d).length = d.length := by
  induction d with
  | nil => simp [dictGet] at h
  | cons hd tl ih =>
    obtain ⟨k0, v0⟩ := hd
    by_cases hk : k0 = k
    · simp [dictInsert, hk]
    · simp only [dictGet, hk, if_false] at h
      simp [dictInsert, hk, ih h]

theorem roundHalfEven_eq_of_lt_half {q : ℚ} {n : ℤ} (hfl : ⌊q⌋ = n) (h : q - (n : ℚ) < 1/2) :
    roundHalfEven q = n := by
  unfold roundHalfEven
  rw [hfl, if_pos h]

theorem roundHalfEven_eq_of_half_lt {q : ℚ} {n : ℤ} (hfl : ⌊q⌋ = n) (h : 1/2 < q - (n : ℚ)) :
    roundHalfEven q = n + 1 := by
  unfold roundHalfEven
  rw [hfl, if_neg (by linarith), if_pos h]

/-- C4: `population_density` returns `round(population / area, 1)` when the
identifier is registered with positive area, and 0 both when the identifier
is absent and when the registered area is exactly 0. -/
theorem population_density_spec (reg : PanchayatRegistry) (panchayat_id : String) :
    (reg.get panchayat_id = none → reg.population_density panchayat_id = 0)
    ∧ (∀ p : GramPanchayat, reg.get panchayat_id = some p →
        (p.area_sq_km = 0 → reg.population_density panchayat_id = 0)
        ∧ (0 < p.area_sq_km →
            reg.population_density panchayat_id = round1 ((p.population : ℚ) / p.area_sq_km))) := by
  unfold PanchayatRegistry.get PanchayatRegistry.population_density
  rcases hd : dictGet panchayat_id reg.panchayats with _ | p
  · exact ⟨fun _ => rfl, fun p hp => by simp at hp⟩
  · refine ⟨fun h => by simp at h, fun p' hp' => ?_⟩
    obtain rfl : p = p' := by simpa using hp'
    exact ⟨fun hz => by simp [hz], fun hpos => by simp [ne_of_gt hpos]⟩

theorem population_density_spec_witness :
    exRegistry.get "GP001" = some exPanchayat
    ∧ (0 : ℚ) < exPanchayat.area_sq_km
    ∧ exRegistry.population_density "GP001"
        = round1 ((exPanchayat.population : ℚ) / exPanchayat.area_sq_km) := by
  have hget : exRegistry.get "GP001" = some exPanchayat := rfl
  have hpos : (0 : ℚ) < exPanchayat.area_sq_km := by decide
  exact ⟨hget, hpos,
    ((population_density_spec exRegistry "GP001").2 exPanchayat hget).2 hpos⟩

/-- C8: `get` after `register` returns the registered record; re-registering
an already-present identifier replaces the record and keeps the number of
registered units constant. -/
theorem register_get_spec (reg : PanchayatRegistry) (u u' : GramPanchayat) :
    (reg.register u).get u.panchayat_id = some u
    ∧ (u'.panchayat_id = u.panchayat_id →
        ((reg.register u).register u').get u'.panchayat_id = some u'
        ∧ ((reg.register u).register u').panchayats.length
            = (reg.register u).panchayats.length) := by
  refine ⟨dictGet_dictInsert_self _ _ _, fun hid => ⟨dictGet_dictInsert_self _ _ _, ?_⟩⟩
  apply length_dictInsert_of_mem
  rw [hid]
  show (dictGet u.panchayat_id (dictInsert u.panchayat_id u reg.panchayats)).isSome
  rw [dictGet_dictInsert_self]
  rfl

theorem register_get_spec_witness :
    exPanchayat'.panchayat_id = exPanchayat.panchayat_id
    ∧ ((PanchayatRegistry.register ⟨[]⟩ exPanchayat).register exPanchayat').get
        exPanchayat'.panchayat_id = some exPanchayat'
    ∧ ((PanchayatRegistry.register ⟨[]⟩ exPanchayat).register exPanchayat').panchayats.length
        = (PanchayatRegistry.register ⟨[]⟩ exPanchayat).panchayats.length := by
  have hid : exPanchayat'.panchayat_id = exPanchayat.panchayat_id := rfl
  have h := (register_get_spec ⟨[]⟩ exPanchayat exPanchayat').2 hid
  exact ⟨hid, h.1, h.2⟩

theorem get_pending_eq (t : ServiceTracker) (filt : Option String) :
    t.get_pending filt = List.insertionSort prioLE (pendingBase t filt) := by
  cases filt with
  | none =>
    show List.insertionSort prioLE
        ((dictValues t.requests).filter (fun r => decide (r.status = "pending")))
      = List.insertionSort prioLE (pendingBase t none)
    unfold pendingBase
    congr 1
    exact (List.filter_congr (fun r _ => by simp [matchesFilter])).symm
  | some pid =>
    show List.insertionSort prioLE
        (if pid = ""
          then (dictValues t.requests).filter (fun r => decide (r.status = "pending"))
          else ((dictValues t.requests).filter (fun r => decide (r.status = "pending"))).filter
            (fun r => decide (r.panchayat_id = pid)))
      = List.insertionSort prioLE (pendingBase t (some pid))
    unfold pendingBase
    by_cases hpid : pid = ""
    · rw [if_pos hpid]
      subst hpid
      congr 1
      exact (List.filter_congr (fun r _ => by simp [matchesFilter])).symm
    · rw [if_neg hpid]
      congr 1
      rw [List.filter_filter]
      exact List.filter_congr (fun r _ => by
        by_cases h1 : r.status = "pending" <;> by_cases h2 : r.panchayat_id = pid <;>
          simp [matchesFilter, h1, h2, hpid])

theorem filter_prio_orderedInsert (n : ℤ) (a : ServiceRequest) (l : List ServiceRequest) :
    (List.orderedInsert prioLE a l).filter (fun r => decide (r.priority = n))
      = ((a :: l).filter (fun r => decide (r.priority = n))) := by
  induction l with
  | nil => rfl
  | cons b l ih =>
    by_cases hab : prioLE a b
    · rw [List.orderedInsert, if_pos hab]
    · rw [List.orderedInsert, if_neg hab]
      have hba : b.priority < a.priority := by
        unfold prioLE at hab
        omega
      by_cases hbn : b.priority = n
      · have han : ¬ a.priority = n := by omega
        simp [List.filter_cons, hbn, han, ih]
      · simp [List.filter_cons, hbn, ih]

theorem filter_prio_insertionSort (n : ℤ) (l : List ServiceRequest) :
    (List.insertionSort prioLE l).filter (fun r => decide (r.priority = n))
      = l.filter (fun r => decide (r.priority = n)) := by
  induction l with
  | nil => rfl
  | cons a l ih =>
    rw [List.insertionSort, filter_prio_orderedInsert]
    simp [List.filter_cons, ih]

/-- C1 (amended): `get_pending` returns exactly the requests with status
literally "pending" that pass the unit filter — the restriction applying
when the supplied filter is non-empty — sorted ascending by priority,
with equal priorities kept in original insertion order. -/
theorem get_pending_amended_spec (t : ServiceTracker) (filt : Option String) :
    (t.get_pending filt).Perm (pendingBase t filt)
    ∧ List.Pairwise prioLE (t.get_pending filt)
    ∧ ∀ n : ℤ, (t.get_pending filt).filter (fun r => decide (r.priority = n))
        = (pendingBase t filt).filter (fun r => decide (r.priority = n)) := by
  rw [get_pending_eq]
  exact ⟨List.perm_insertionSort _ _, List.sorted_insertionSort _ _,
    fun n => filter_prio_insertionSort n _⟩

/-- C1 counterexample: the claim as stated quantifies over every optional
filter, but a supplied empty-string filter restricts nothing: the result
still contains a request whose unit id is "GP001", not "". -/
theorem get_pending_claim_counterexample :
    exTracker.get_pending (some "") = [exRequest] ∧ exRequest.panchayat_id = "GP001" := by
  constructor <;> rfl

/-- C10: a supplied empty-string filter behaves exactly like no filter,
because Python `if panchayat_id:` treats "" as falsy. -/
theorem get_pending_empty_filter (t : ServiceTracker) :
    t.get_pending (some "") = t.get_pending none := rfl

/-- C5: `update_status` on an unknown identifier returns false and leaves
the whole state unchanged; on a known identifier it returns true, sets the
status, sets the resolution date only when the argument is supplied and
non-empty (a supplied empty value leaves the stored date untouched), and
leaves every other entry unchanged. -/
theorem update_status_spec (t : ServiceTracker) (request_id status : String)
    (resolved_date : Option String) :
    (dictGet request_id t.requests = none →
      t.update_status request_id status resolved_date = (false, t))
    ∧ (∀ req : ServiceRequest, dictGet request_id t.requests = some req →
        (t.update_status request_id status resolved_date).1 = true
        ∧ dictGet request_id (t.update_status request_id status resolved_date).2.requests
            = some { req with
                status := status,
                resolved_date := match resolved_date with
                  | none => req.resolved_date
                  | some d => if d = "" then req.resolved_date else some d }
        ∧ ∀ k : String, k ≠ request_id →
            dictGet k (t.update_status request_id status resolved_date).2.requests
              = dictGet k t.requests) := by
  unfold ServiceTracker.update_status
  rcases hd : dictGet request_id t.requests with _ | req
  · exact ⟨fun _ => rfl, fun req hreq => by simp at hreq⟩
  · refine ⟨fun h => by simp at h, fun req' hreq' => ?_⟩
    obtain rfl : req = req' := by simpa using hreq'
    refine ⟨rfl, ?_, fun k hk => dictGet_dictInsert_ne _ _ hk⟩
    rw [dictGet_dictInsert_self]
    rcases resolved_date with _ | d
    · rfl
    · by_cases hd0 : d = "" <;> simp [hd0]

theorem update_status_spec_witness :
    dictGet "SR404" exTracker.requests = none
    ∧ exTracker.update_status "SR404" "resolved" none = (false, exTracker)
    ∧ dictGet "SR001" exTracker.requests = some exRequest
    ∧ (exTracker.update_status "SR001" "resolved" (some "")).1 = true
    ∧ dictGet "SR001" (exTracker.update_status "SR001" "resolved" (some "")).2.requests
        = some { exRequest with status := "resolved", resolved_date := none } := by
  have habs : dictGet "SR404" exTracker.requests = none := rfl
  have hpres : dictGet "SR001" exTracker.requests = some exRequest := rfl
  have h1 := (update_status_spec exTracker "SR404" "resolved" none).1 habs
  have h2 := (update_status_spec exTracker "SR001" "resolved" (some "")).2 exRequest hpres
  exact ⟨habs, h1, hpres, h2.1, h2.2.1⟩

/-- C7: when the unit has requests, `resolution_rate` equals the count of
its requests with status exactly "resolved" divided by the count of all
its requests, times 100, rounded to 1 decimal; it always lies in [0, 100],
is 0 when the unit has no requests, and is 100 when the unit has requests
and every one of them has status exactly "resolved". -/
theorem resolution_rate_spec (t : ServiceTracker) (panchayat_id : String) :
    0 ≤ t.resolution_rate panchayat_id
    ∧ t.resolution_rate panchayat_id ≤ 100
    ∧ ((dictValues t.requests).countP (fun r => decide (r.panchayat_id = panchayat_id)) = 0 →
        t.resolution_rate panchayat_id = 0)
    ∧ (0 < (dictValues t.requests).countP (fun r => decide (r.panchayat_id = panchayat_id)) →
        t.resolution_rate panchayat_id
          = round1 ((((dictValues t.requests).countP
                  (fun r => decide (r.panchayat_id = panchayat_id
                    ∧ r.status = "resolved"))) : ℚ)
              / (((dictValues t.requests).countP
                  (fun r => decide (r.panchayat_id = panchayat_id))) : ℚ) * 100))
    ∧ (0 < (dictValues t.requests).countP (fun r => decide (r.panchayat_id = panchayat_id)) →
        (∀ r ∈ dictValues t.requests, r.panchayat_id = panchayat_id → r.status = "resolved") →
        t.resolution_rate panchayat_id = 100) := by
  unfold ServiceTracker.resolution_rate
  set total := (dictValues t.requests).countP
      (fun r => decide (r.panchayat_id = panchayat_id)) with htotal
  set resolved := (dictValues t.requests).countP
      (fun r => decide (r.panchayat_id = panchayat_id ∧ r.status = "resolved")) with hresolved
  have hle : resolved ≤ total := by
    apply List.countP_mono_left
    intro r _ hr
    simp only [decide_eq_true_eq] at hr ⊢
    exact hr.1
  by_cases hpos : 0 < total
  · have htQ : (0 : ℚ) < (total : ℚ) := by exact_mod_cast hpos
    have hq0 : 0 ≤ (resolved : ℚ) / (total : ℚ) * 100 := by positivity
    have hq100 : (resolved : ℚ) / (total : ℚ) * 100 ≤ 100 := by
      have hrt : (resolved : ℚ) ≤ (total : ℚ) := by exact_mod_cast hle
      have h1 : (resolved : ℚ) / (total : ℚ) ≤ 1 := (div_le_one htQ).mpr hrt
      nlinarith
    rw [if_pos hpos]
    refine ⟨round1_nonneg hq0, round1_le_100 hq100, fun h0 => by omega, fun _ => rfl,
      fun _ hall => ?_⟩
    have heq : resolved = total := by
      apply List.countP_congr
      intro r hr
      simp only [decide_eq_true_eq]
      exact ⟨fun h => h.1, fun h => ⟨h, hall r hr h⟩⟩
    rw [heq, div_self (ne_of_gt htQ), one_mul]
    have := round1_intCast 100
    push_cast at this
    exact this
  · rw [if_neg hpos]
    exact ⟨le_rfl, by norm_num, fun _ => rfl, fun h => absurd h hpos,
      fun h => absurd h hpos⟩

theorem resolution_rate_spec_witness :
    0 < (dictValues exTrackerR.requests).countP (fun r => decide (r.panchayat_id = "GP001"))
    ∧ (∀ r ∈ dictValues exTrackerR.requests, r.panchayat_id = "GP001" → r.status = "resolved")
    ∧ exTrackerR.resolution_rate "GP001"
        = round1 ((((dictValues exTrackerR.requests).countP
                (fun r => decide (r.panchayat_id = "GP001" ∧ r.status = "resolved"))) : ℚ)
            / (((dictValues exTrackerR.requests).countP
                (fun r => decide (r.panchayat_id = "GP001"))) : ℚ) * 100)
    ∧ exTrackerR.resolution_rate "GP001" = 100 := by
  have hpos : 0 < (dictValues exTrackerR.requests).countP
      (fun r => decide (r.panchayat_id = "GP001")) := by decide
  have hall : ∀ r ∈ dictValues exTrackerR.requests,
      r.panchayat_id = "GP001" → r.status = "resolved" := by decide
  exact ⟨hpos, hall, (resolution_rate_spec exTrackerR "GP001").2.2.2.1 hpos,
    (resolution_rate_spec exTrackerR "GP001").2.2.2.2 hpos hall⟩

/-- C6: `utilization_pct` is 0 whenever the allocated amount is 0
(regardless of the utilized amount), and otherwise equals
`round(utilized / allocated * 100, 1)` — the division is reached only
under the non-zero guard. -/
theorem utilization_pct_spec (a : BudgetAllocation)
    (h1 : 0 ≤ a.allocated_amount) (h2 : 0 ≤ a.utilized_amount) :
    (a.allocated_amount = 0 → a.utilization_pct = 0)
    ∧ (a.allocated_amount ≠ 0 →
        a.utilization_pct = round1 (a.utilized_amount / a.allocated_amount * 100)) := by
  unfold BudgetAllocation.utilization_pct
  exact ⟨fun h => by rw [if_pos h], fun h => by rw [if_neg h]⟩

theorem utilization_pct_spec_witness :
    (0 : ℚ) ≤ exAllocZ.allocated_amount ∧ (0 : ℚ) ≤ exAllocZ.utilized_amount
    ∧ exAllocZ.allocated_amount = 0 ∧ exAllocZ.utilization_pct = 0 := by
  have ha : (0 : ℚ) ≤ exAllocZ.allocated_amount := by decide
  have hu : (0 : ℚ) ≤ exAllocZ.utilized_amount := by decide
  exact ⟨ha, hu, rfl, (utilization_pct_spec exAllocZ ha hu).1 rfl⟩

theorem pct_MGNREGA :
    (⟨"GP001", "2023-24", "MGNREGA", 500000, 320000⟩ : BudgetAllocation).utilization_pct
      = 64 := by
  unfold BudgetAllocation.utilization_pct
  rw [if_neg (by norm_num)]
  rw [show ((320000 : ℚ) / 500000 * 100) = ((64 : ℤ) : ℚ) by norm_num, round1_intCast]
  norm_num

theorem pct_JJM :
    (⟨"GP001", "2023-24", "Jal Jeevan Mission", 800000, 760000⟩
      : BudgetAllocation).utilization_pct = 95 := by
  unfold BudgetAllocation.utilization_pct
  rw [if_neg (by norm_num)]
  rw [show ((760000 : ℚ) / 800000 * 100) = ((95 : ℤ) : ℚ) by norm_num, round1_intCast]
  norm_num

theorem pct_PMAY :
    (⟨"GP001", "2023-24", "PMAY-Gramin", 300000, 90000⟩ : BudgetAllocation).utilization_pct
      = 30 := by
  unfold BudgetAllocation.utilization_pct
  rw [if_neg (by norm_num)]
  rw [show ((90000 : ℚ) / 300000 * 100) = ((30 : ℤ) : ℚ) by norm_num, round1_intCast]
  norm_num

theorem pct_SBM :
    (⟨"GP001", "2023-24", "Swachh Bharat Mission (Gramin)", 150000, 148000⟩
      : BudgetAllocation).utilization_pct = 987/10 := by
  unfold BudgetAllocation.utilization_pct
  rw [if_neg (by norm_num)]
  unfold round1
  have hfl : ⌊(10 : ℚ) * ((148000 : ℚ) / 150000 * 100)⌋ = 986 := by norm_num
  rw [roundHalfEven_eq_of_half_lt hfl (by norm_num)]
  norm_num

theorem recLine_PMAY :
    recLine ⟨"GP001", "2023-24", "PMAY-Gramin", 300000, 90000⟩
      = "Reallocate Rs 210,000 from PMAY-Gramin (only 30% utilized) to higher-need areas" := by
  unfold recLine fmtComma0 fmtF0
  rw [pct_PMAY]
  rw [show ((⟨"GP001", "2023-24", "PMAY-Gramin", 300000, 90000⟩
        : BudgetAllocation).allocated_amount
      - (⟨"GP001", "2023-24", "PMAY-Gramin", 300000, 90000⟩
        : BudgetAllocation).utilized_amount) = ((210000 : ℤ) : ℚ) by norm_num]
  rw [roundHalfEven_intCast]
  rw [show (30 : ℚ) = ((30 : ℤ) : ℚ) by norm_cast, roundHalfEven_intCast]
  decide

/-- C3: `recommend_reallocation` emits exactly one line per record of the
given unit and year with utilization strictly below 50.0, in the order of
`under_utilized`, each line naming the scheme, the unspent amount and the
utilization percentage; zero lines when every matching record is at or
above 50.0; and on the §8 scenario it emits exactly the one PMAY-Gramin
line with unspent amount 210,000. -/
theorem recommend_reallocation_spec (b : BudgetAnalyzer) (panchayat_id year : String) :
    b.recommend_reallocation panchayat_id year
        = (b.under_utilized panchayat_id year 50).map recLine
    ∧ (b.recommend_reallocation panchayat_id year).length
        = b.allocations.countP (fun a => decide (a.panchayat_id = panchayat_id
            ∧ a.financial_year = year ∧ a.utilization_pct < 50))
    ∧ ((∀ a ∈ b.allocations, a.panchayat_id = panchayat_id → a.financial_year = year →
          50 ≤ a.utilization_pct) →
        b.recommend_reallocation panchayat_id year = [])
    ∧ scenarioBudget.recommend_reallocation "GP001" "2023-24"
        = ["Reallocate Rs 210,000 from PMAY-Gramin (only 30% utilized) to higher-need areas"] := by
  refine ⟨rfl, ?_, ?_, ?_⟩
  · rw [List.countP_eq_length_filter]
    exact List.length_map _ _
  · intro hall
    unfold BudgetAnalyzer.recommend_reallocation BudgetAnalyzer.under_utilized
    rw [List.filter_eq_nil_iff.mpr, List.map_nil]
    intro a ha
    simp only [decide_eq_true_eq, not_and, not_lt]
    exact fun hp hy => hall a ha hp hy
  · unfold BudgetAnalyzer.recommend_reallocation BudgetAnalyzer.under_utilized scenarioBudget
      BudgetAnalyzer.add
    simp only [List.nil_append, List.cons_append, List.singleton_append]
    rw [List.filter_cons_of_neg (by
      simp only [decide_eq_true_eq, not_and, not_lt]
      intro _ _
      rw [pct_MGNREGA]
      norm_num)]
    rw [List.filter_cons_of_neg (by
      simp only [decide_eq_true_eq, not_and, not_lt]
      intro _ _
      rw [pct_JJM]
      norm_num)]
    rw [List.filter_cons_of_pos (by
      simp only [decide_eq_true_eq]
      refine ⟨by trivial, by trivial, ?_⟩
      rw [pct_PMAY]
      norm_num)]
    rw [List.filter_cons_of_neg (by
      simp only [decide_eq_true_eq, not_and, not_lt]
      intro _ _
      rw [pct_SBM]
      norm_num)]
    rw [List.filter_nil, List.map_cons, List.map_nil, recLine_PMAY]

theorem recommend_reallocation_spec_witness :
    (∀ a ∈ exBudgetHigh.allocations, a.panchayat_id = "GP001" → a.financial_year = "2023-24" →
      50 ≤ a.utilization_pct)
    ∧ exBudgetHigh.recommend_reallocation "GP001" "2023-24" = [] := by
  have hall : ∀ a ∈ exBudgetHigh.allocations, a.panchayat_id = "GP001" →
      a.financial_year = "2023-24" → 50 ≤ a.utilization_pct := by
    intro a ha _ _
    have haeq : a = ⟨"GP001", "2023-24", "MGNREGA", 500000, 500000⟩ := by
      simpa [exBudgetHigh, BudgetAnalyzer.add] using ha
    subst haeq
    unfold BudgetAllocation.utilization_pct
    rw [if_neg (by norm_num)]
    rw [show ((500000 : ℚ) / 500000 * 100) = ((100 : ℤ) : ℚ) by norm_num, round1_intCast]
    norm_num
  exact ⟨hall, (recommend_reallocation_spec exBudgetHigh "GP001" "2023-24").2.2.1 hall⟩

theorem eligCond_eq_claimEligible (p : GramPanchayat) (s : SchemeInfo) :
    eligCond p s = decide (claimEligible p s) := by
  unfold eligCond claimEligible
  split_ifs with h1 h2 h3 h4 h5
  · exact (decide_eq_true (by tauto)).symm
  · exact (decide_eq_true (by tauto)).symm
  · exact (decide_eq_true (by tauto)).symm
  · exact (decide_eq_true (by tauto)).symm
  · exact (decide_eq_true (by tauto)).symm
  · exact (decide_eq_false (by tauto)).symm

/-- C2: `find_eligible` with a unit keeps, in catalog order, exactly the
schemes allowed by the tag rules (always-eligible tags; census_towns iff
population > 5000; unconnected_habitations iff population ≥ 250; any other
tag excluded), and with no unit returns the full catalog. -/
theorem find_eligible_spec (m : SchemeMapper) (p : GramPanchayat) :
    m.find_eligible (some p) = m.schemes.filter (fun s => decide (claimEligible p s))
    ∧ m.find_eligible none = m.schemes := by
  refine ⟨?_, rfl⟩
  unfold SchemeMapper.find_eligible
  exact List.filter_congr (fun s _ => eligCond_eq_claimEligible p s)

/-- C9 counterexample: a record reference obtained from the list returned
by `all_schemes` is a reference into the canonical catalog, and mutating
the record through it changes what the canonical catalog denotes — the
`list(...)` copies protect only the list object, not the records. -/
theorem scheme_catalog_claim_counterexample :
    (SchemeMapperRefs.init.all_schemes).headD 0 ∈ SchemeMapperRefs.init.schemes
    ∧ deref mutatedHeap SchemeMapperRefs.init.schemes
        ≠ deref schemeHeap0 SchemeMapperRefs.init.schemes := by
  constructor
  · decide
  · decide

/-- C9 (amended): the catalog is exactly 15 records fixed at construction,
no operation rebinds or filters it in place, and every list returned by
`all_schemes`, `search` or `find_eligible` is a fresh list whose contents
come from the canonical catalog — at reference level the returned lists
hold the very same record references as `self._schemes` (`all_schemes`
returns all of them, `search` and `find_eligible` a sub-list of them), so
the mutable records themselves are shared with (reachable through) every
returned list. -/
theorem scheme_catalog_amended_spec :
    SCHEMES.length = 15
    ∧ SchemeMapper.init.schemes = SCHEMES
    ∧ (∀ m : SchemeMapper, m.all_schemes = m.schemes)
    ∧ (∀ m : SchemeMapper, ∀ p : Option GramPanchayat,
        List.Sublist (m.find_eligible p) m.schemes)
    ∧ (∀ m : SchemeMapper, ∀ q : String, List.Sublist (m.search q) m.schemes)
    ∧ SchemeMapperRefs.init.all_schemes = SchemeMapperRefs.init.schemes
    ∧ (∀ hp : SchemeHeap, ∀ m : SchemeMapperRefs, ∀ p : Option GramPanchayat,
        List.Sublist (SchemeMapperRefs.find_eligible hp m p) m.schemes)
    ∧ (∀ hp : SchemeHeap, ∀ m : SchemeMapperRefs, ∀ q : String,
        List.Sublist (SchemeMapperRefs.search hp m q) m.schemes) := by
  refine ⟨rfl, rfl, fun m => rfl, fun m p => ?_, fun m q => List.filter_sublist _, rfl,
    fun hp m p => ?_, fun hp m q => List.filter_sublist _⟩
  · cases p with
    | none => exact List.Sublist.refl _
    | some gp => exact List.filter_sublist _
  · cases p with
    | none => exact List.Sublist.refl _
    | some gp => exact List.filter_sublist _

end AumaiSmartgram

